import Mathlib

/-!
Verification of the n8n-python repository's three batch scripts:
  * src/python_scripts/n8n-replace-text.py        (slide-deck text replacement)
  * src/python_scripts/n8n-output-slides-text.py  (slide-deck text extraction)
  * src/python_scripts/n8n-create-blank-time.py   (silent-audio synthesis)
Python strings are modelled as `List Char`; Python dict work items as
structures with `Option` fields; filesystem and process effects as explicit
environment records and write/load traces.
-/

/-- A Python string, modelled as its character list. -/
abbrev Str := List Char

/-- Python's substring test `needle in hay` (`in` on `str`), used at
n8n-replace-text.py line 30 (`if search_text in paragraph.text`).
Contiguous-substring containment; an empty needle is contained in every
string, as in Python. -/
def strContains : Str → Str → Bool
  | [], needle => needle.isPrefixOf []
  | hay@(_ :: t), needle => needle.isPrefixOf hay || strContains t needle

/-- Python `s.replace(old, new)` for the special case `old = ""`: CPython
inserts `new` before every character and at the end
(`"abc".replace("", "-") = "-a-b-c-"`). -/
def emptyPatternReplace (r : Str) : Str → Str
  | [] => r
  | c :: t => r ++ c :: emptyPatternReplace r t

/-- Left-to-right, non-overlapping replace-all for a nonempty pattern `o`,
fuelled so that it is structurally recursive (one fuel per consumed input
position; `fuel = s.length` is always enough, see `replaceFuel_fuel_free`). -/
def replaceFuel (o r : Str) : Nat → Str → Str
  | _, [] => []
  | 0, s => s
  | fuel + 1, c :: t =>
    if o.isPrefixOf (c :: t) then r ++ replaceFuel o r fuel (t.drop (o.length - 1))
    else c :: replaceFuel o r fuel t

/-- Python `s.replace(old, new)`: literal, case-sensitive, left-to-right,
non-overlapping substitution of every occurrence of `old` in `s` by `new`,
used at n8n-replace-text.py line 31
(`paragraph.text = paragraph.text.replace(search_text, replace_text)`). -/
def pyReplace (s o r : Str) : Str :=
  if o = [] then emptyPatternReplace r s else replaceFuel o r s.length s

/-- ASCII case folding of one character, the fragment of Python's
`str.lower` exercised by n8n-create-blank-time.py line 133
(`output_format.lower()`); agrees with CPython on all ASCII input. -/
def asciiLowerChar (c : Char) : Char :=
  if 65 ≤ c.toNat ∧ c.toNat ≤ 90 then Char.ofNat (c.toNat + 32) else c

/-- Python `s.lower()` on ASCII strings (n8n-create-blank-time.py line 133). -/
def pyLower (s : Str) : Str := s.map asciiLowerChar

/-- Whether a string starts with the character `c` (`p.startswith(c)`). -/
def startsWithChar (c : Char) : Str → Bool
  | [] => false
  | x :: _ => x = c

/-- POSIX `os.path.join(a, b)` for exactly two components, as called at
n8n-replace-text.py line 35 and n8n-create-blank-time.py line 89: if `b` is
absolute the result is `b`; else `b` is appended to `a`, inserting `'/'`
unless `a` is empty or already ends in `'/'`. -/
def pyJoin (a b : Str) : Str :=
  if startsWithChar '/' b then b
  else if a = [] ∨ startsWithChar '/' a.reverse then a ++ b
  else a ++ '/' :: b

/-- POSIX `os.path.basename(p)` (n8n-replace-text.py line 34): the suffix
of `p` after its last `'/'` (all of `p` when it has none). -/
def py_basename (p : Str) : Str :=
  (p.reverse.takeWhile (fun c => c != '/')).reverse

/-- POSIX `os.path.dirname(p)` (n8n-replace-text.py line 35): the prefix of
`p` up to and including its last `'/'`, with trailing slashes stripped
unless that prefix consists of slashes only; empty when `p` has no `'/'`. -/
def py_dirname (p : Str) : Str :=
  let head := (p.reverse.dropWhile (fun c => c != '/')).reverse
  if head ≠ [] ∧ ¬ (head.all (fun c => c = '/')) then
    (head.reverse.dropWhile (fun c => c = '/')).reverse
  else head

/-- Index of the last occurrence of `c` in `l` (Python `p.rfind(c)`,
`none` standing for `-1`). -/
def lastIndexOf (c : Char) : Str → Option Nat
  | [] => none
  | x :: t =>
    match lastIndexOf c t with
    | some i => some (i + 1)
    | none => if x = c then some 0 else none

/-- The root part of POSIX `os.path.splitext(p)` (`splitext(p)[0]`, used at
n8n-create-blank-time.py line 83): `p` cut before its last `'.'` when that
dot lies after the last `'/'` and the basename does not consist solely of
leading dots up to it; otherwise `p` itself. -/
def py_splitext_root (p : Str) : Str :=
  let sepIndex : Int := match lastIndexOf '/' p with | some i => (i : Int) | none => -1
  let dotIndex : Int := match lastIndexOf '.' p with | some i => (i : Int) | none => -1
  if sepIndex < dotIndex then
    let stem := ((p.drop (sepIndex + 1).toNat).take (dotIndex - sepIndex - 1).toNat)
    if stem.any (fun c => c != '.') then p.take dotIndex.toNat else p
  else p

/-! ## Slide-deck document model (python-pptx objects as used by the scripts) -/

/-- A slide shape as the scripts dispatch on it: a shape with a text frame
(`shape.has_text_frame`, owning the ordered paragraph texts), a graphic
frame holding a table (`shape.has_table`, for which `has_text_frame` is
false), or any other shape. -/
inductive Shape where
  | textFrame (paragraphs : List Str)
  | table (cells : List (List Str))
  | other
deriving DecidableEq

/-- A slide: its shapes in order, and its speaker-notes text. -/
structure Slide where
  shapes : List Shape
  notes : Str
deriving DecidableEq

/-- A loaded presentation (`pptx.Presentation`): its slides in order. -/
structure Pres where
  slides : List Slide
deriving DecidableEq

/-! ## n8n-replace-text.py -/

/-- One paragraph under the replacement loop, n8n-replace-text.py
lines 30–31: `if search_text in paragraph.text: paragraph.text =
paragraph.text.replace(search_text, replace_text)`. -/
def replace_paragraph (s r p : Str) : Str :=
  if strContains p s then pyReplace p s r else p

/-- One shape under the replacement loop, n8n-replace-text.py lines 26–31:
only shapes with `has_text_frame` are touched; a table's graphic frame and
every other shape pass through unchanged. -/
def replace_shape (s r : Str) : Shape → Shape
  | Shape.textFrame ps => Shape.textFrame (ps.map (replace_paragraph s r))
  | sh => sh

/-- The whole replacement traversal, n8n-replace-text.py lines 24–31: every
slide, every shape; slide notes are never visited. -/
def replace_in_presentation (s r : Str) (prs : Pres) : Pres :=
  { slides := prs.slides.map (fun sl => { shapes := sl.shapes.map (replace_shape s r), notes := sl.notes }) }

/-- The replacement script's output path, n8n-replace-text.py lines 34–35:
`os.path.join(os.path.dirname(file_path), f"modified_{file_name}")` with
`file_name = os.path.basename(file_path)`. -/
def modified_path (fp : Str) : Str :=
  pyJoin (py_dirname fp) (("modified_".toList) ++ py_basename fp)

/-- Environment for one run of n8n-replace-text.py: which paths exist on
disk (`os.path.exists`) and what `Presentation(file_path)` yields when
attempted — a loaded deck, or the message of the exception it raises. -/
structure ReplaceEnv where
  fileExists : Str → Bool
  load : Str → Except Str Pres

/-- A work item of n8n-replace-text.py: the incoming dict keys the script
reads (`file_path` defaulting to `""`, `searchText`, `replaceText`) and the
result keys it adds (`status`, `error`, `output_path`). -/
structure ReplaceWorkItem where
  file_path : Str := []
  searchText : Option Str := none
  replaceText : Option Str := none
  status : Option Str := none
  error : Option Str := none
  output_path : Option Str := none
deriving DecidableEq

/-- One iteration of the loop of n8n-replace-text.py lines 9–53: returns
the updated item and the list of (path, deck) writes performed
(`prs.save(output_path)` at line 38 is the only write). The `try/except`
at lines 10 and 48–51 converts a load failure into result fields. -/
def process_replace_item (env : ReplaceEnv) (it : ReplaceWorkItem) :
    ReplaceWorkItem × List (Str × Pres) :=
  if it.file_path ≠ [] ∧ env.fileExists it.file_path = true then
    match env.load it.file_path with
    | Except.ok prs =>
      let out := replace_in_presentation (it.searchText.getD ("OLD TEXT".toList))
        (it.replaceText.getD ("NEW TEXT".toList)) prs
      ({ it with status := some ("Text replaced successfully".toList),
                 output_path := some (modified_path it.file_path) },
       [(modified_path it.file_path, out)])
    | Except.error e =>
      ({ it with status := some ("Error processing PowerPoint file".toList),
                 error := some e }, [])
  else
    ({ it with status := some (("File not found: ".toList) ++ it.file_path),
               error := some ("Invalid file path or file does not exist".toList) }, [])

/-- The whole batch of n8n-replace-text.py: `new_items.append(item)` at
line 53 runs on every iteration, valid or not, succeeded or failed. -/
def replace_batch (env : ReplaceEnv) (items : List ReplaceWorkItem) :
    List ReplaceWorkItem × List (Str × Pres) :=
  items.foldl
    (fun acc it =>
      let step := process_replace_item env it
      (acc.1 ++ [step.1], acc.2 ++ step.2))
    ([], [])

/-! ## n8n-output-slides-text.py -/

/-- A work item of n8n-output-slides-text.py: the script reads only
`item.json.get("file_path", "")` (line 13). -/
structure ExtractWorkItem where
  file_path : Str := []
deriving DecidableEq

/-- An element appended to `results` by the reachable part of
n8n-output-slides-text.py (lines 16–20). -/
structure ExtractErrorResult where
  success : Bool
  error : Str
  file_path : Str
deriving DecidableEq

/-- One iteration of the loop of n8n-output-slides-text.py lines 10–21,
returning the result appended to `results` (if any), the paths on which a
deck load (`Presentation(...)`) is attempted, and the paths written.
The loop body as written is only the validation of lines 13–21: the block
at lines 71–109 — `Presentation(file_path)`, the per-slide extraction, the
`json.dump` write at line 93, and the success/error `results.append`
calls — is nested inside `extract_slide_content` after its
`return slide_data` (line 69) and is therefore unreachable, so an item
whose path is valid causes no load, no write, and no appended result. -/
def extract_step (fs : List Str) (item : ExtractWorkItem) :
    Option ExtractErrorResult × List Str × List Str :=
  if item.file_path = [] ∨ ¬ (item.file_path ∈ fs) then
    (some { success := false,
            error := ("Invalid file path: ".toList) ++ item.file_path,
            file_path := item.file_path }, [], [])
  else (none, [], [])

/-- The whole batch of n8n-output-slides-text.py against the set `fs` of
paths for which `os.path.isfile` is true: the accumulated `results` list,
deck-load attempts, and file writes. -/
def extract_run (fs : List Str) (items : List ExtractWorkItem) :
    List ExtractErrorResult × List Str × List Str :=
  items.foldl
    (fun acc item =>
      let step := extract_step fs item
      (acc.1 ++ step.1.toList, acc.2.1 ++ step.2.1, acc.2.2 ++ step.2.2))
    ([], [], [])

/-! ## n8n-create-blank-time.py -/

/-- Outcome of `ff.run()` (n8n-create-blank-time.py line 99): completion
without exception, an `FFRuntimeError` (caught at line 107), or any other
exception (caught at line 110). -/
inductive RunOutcome where
  | ok
  | runtimeError (msg : Str)
  | otherError (msg : Str)
deriving DecidableEq

/-- Outcome of the `imageio_ffmpeg` branch of `get_ffmpeg_path`
(n8n-create-blank-time.py lines 31–35): the import fails with
`ImportError` (the only exception the `except` clause there catches — the
package is absent); or `get_ffmpeg_exe()` returns a path; or
`get_ffmpeg_exe()` raises some non-`ImportError` exception (imageio-ffmpeg
raises `RuntimeError` when the package is importable but no binary
resolves), which the clause does not catch. -/
inductive ImageioOutcome where
  | importError
  | resolved (path : Str)
  | raises (msg : Str)
deriving DecidableEq

/-- Execution environment of n8n-create-blank-time.py: the result of
`shutil.which("ffmpeg")` (line 26); the outcome of the `imageio_ffmpeg`
branch (lines 31–35); the outcome of running the encoder process; and
whether the destination file exists on disk after the process has run
(`os.path.exists(output_file)`, line 101). -/
structure AudioEnv where
  whichFfmpeg : Option Str
  imageioOutcome : ImageioOutcome
  runOutcome : RunOutcome
  outputExistsAfterRun : Bool
deriving DecidableEq

/-- `get_ffmpeg_path` (n8n-create-blank-time.py lines 17–38): first
`shutil.which("ffmpeg")`; otherwise the `imageio_ffmpeg` branch, whose
`except ImportError: pass` lets the function fall through to `return None`
only on `ImportError` — any other exception raised by `get_ffmpeg_exe()`
propagates out of `get_ffmpeg_path`, modelled as `Except.error`. -/
def get_ffmpeg_path (env : AudioEnv) : Except Str (Option Str) :=
  match env.whichFfmpeg with
  | some p => Except.ok (some p)
  | none =>
    match env.imageioOutcome with
    | ImageioOutcome.importError => Except.ok none
    | ImageioOutcome.resolved p => Except.ok (some p)
    | ImageioOutcome.raises m => Except.error m

/-- The encoder path `create_empty_audio` ends up holding after the
`ffmpeg_path is None` fallback at n8n-create-blank-time.py lines 68–69:
an explicit argument wins, otherwise the locator's successful result;
`none` when the locator returns `None` or raises (in the latter case the
exception is caught by the generic `except` at line 110). -/
def resolve_ffmpeg (env : AudioEnv) (ffmpeg_path : Option Str) : Option Str :=
  match ffmpeg_path with
  | some p => some p
  | none =>
    match get_ffmpeg_path env with
    | Except.ok (some p) => some p
    | Except.ok none => none
    | Except.error _ => none

/-- The channel-layout token, n8n-create-blank-time.py line 79:
`channel_layout = "mono" if channels == 1 else "stereo"`. -/
def channel_layout (channels : Int) : Str :=
  if channels = 1 then "mono".toList else "stereo".toList

/-- `format_codec_map` of `get_codec_for_format`, n8n-create-blank-time.py
lines 124–131. -/
def format_codec_map : List (Str × Str) :=
  [("mp3".toList, "libmp3lame".toList),
   ("wav".toList, "pcm_s16le".toList),
   ("ogg".toList, "libvorbis".toList),
   ("aac".toList, "aac".toList),
   ("flac".toList, "flac".toList),
   ("m4a".toList, "aac".toList)]

/-- `get_codec_for_format` (n8n-create-blank-time.py lines 114–133):
`format_codec_map.get(output_format.lower(), "libmp3lame")`. -/
def get_codec_for_format (output_format : Str) : Str :=
  (format_codec_map.lookup (pyLower output_format)).getD ("libmp3lame".toList)

/-- The output-filename normalization of n8n-create-blank-time.py
lines 82–84: keep the name when it already ends in `"." + format`,
otherwise replace its extension. -/
def audio_output_file (output_file output_format : Str) : Str :=
  if List.isSuffixOf ('.' :: output_format) output_file then output_file
  else py_splitext_root output_file ++ '.' :: output_format

/-- The destination path of n8n-create-blank-time.py lines 82–89: the
normalized filename, joined onto `output_dir` when one is given. -/
def audio_output_path (output_file output_format : Str) (output_dir : Option Str) : Str :=
  match output_dir with
  | some d => pyJoin d (audio_output_file output_file output_format)
  | none => audio_output_file output_file output_format

/-- The encoder invocation built at n8n-create-blank-time.py lines 92–96:
`anullsrc=r={sample_rate}:cl={channel_layout}` as input,
`-t {duration} -c:a {codec} -b:a {bitrate}k` to the output path. -/
structure FfCommand where
  sample_rate : Int
  layout : Str
  duration : Int
  codec : Str
  bitrate : Int
  output : Str
deriving DecidableEq

/-- Result of one call to `create_empty_audio`: the returned value
(`some path` for success, `none` for every failure), whether an encoder
process was launched (`ff.run()` reached), and the command it was built
from when so. -/
structure AudioRun where
  result : Option Str
  processInvoked : Bool
  command : Option FfCommand
deriving DecidableEq

/-- Lines 78–112 of n8n-create-blank-time.py, after an encoder path is in
hand: build the command, run it, and demand both a clean run and an
existing destination (lines 101–106); `FFRuntimeError` (line 107) and any
other exception (line 110) become `None`. -/
def create_empty_audio_after_resolve (env : AudioEnv) (duration : Int)
    (output_file : Str) (sample_rate : Int) (bitrate : Int) (channels : Int)
    (output_format : Str) (output_dir : Option Str) : AudioRun :=
  let out := audio_output_path output_file output_format output_dir
  let cmd : FfCommand :=
    { sample_rate := sample_rate, layout := channel_layout channels,
      duration := duration, codec := get_codec_for_format output_format,
      bitrate := bitrate, output := out }
  match env.runOutcome with
  | RunOutcome.ok =>
    { result := if env.outputExistsAfterRun then some out else none,
      processInvoked := true, command := some cmd }
  | RunOutcome.runtimeError _ =>
    { result := none, processInvoked := true, command := some cmd }
  | RunOutcome.otherError _ =>
    { result := none, processInvoked := true, command := some cmd }

/-- `create_empty_audio` (n8n-create-blank-time.py lines 40–112). With no
explicit `ffmpeg_path`, the locator runs inside the `try` (line 69): a
`None` locator result returns `None` before any process starts
(lines 70–76), and an exception propagating out of the locator is caught
by the generic `except` at line 110 — also `None`, also before any
process. Every failure is returned as a value. -/
def create_empty_audio (env : AudioEnv) (duration : Int) (output_file : Str)
    (ffmpeg_path : Option Str) (sample_rate : Int) (bitrate : Int) (channels : Int)
    (output_format : Str) (output_dir : Option Str) : AudioRun :=
  match ffmpeg_path with
  | some _ =>
    create_empty_audio_after_resolve env duration output_file sample_rate bitrate
      channels output_format output_dir
  | none =>
    match get_ffmpeg_path env with
    | Except.ok (some _) =>
      create_empty_audio_after_resolve env duration output_file sample_rate bitrate
        channels output_format output_dir
    | Except.ok none => { result := none, processInvoked := false, command := none }
    | Except.error _ => { result := none, processInvoked := false, command := none }

/-- The parameter dict read by `n8n_execute` (n8n-create-blank-time.py
lines 155–165); an absent key is `none`. -/
structure AudioParams where
  duration : Option Int := none
  output_file : Option Str := none
  sample_rate : Option Int := none
  bitrate : Option Int := none
  channels : Option Int := none
  output_format : Option Str := none
  output_dir : Option Str := none
  ffmpeg_path : Option Str := none
deriving DecidableEq

/-- The dict returned by `n8n_execute` (n8n-create-blank-time.py
lines 179–193). -/
inductive N8nAudioResult where
  | success (file_path : Str) (duration : Int) (format : Str)
      (sample_rate : Int) (bitrate : Int) (channels : Int)
  | failure (error : Str)
deriving DecidableEq

/-- Whether an `n8n_execute` result is the success dict. -/
def N8nAudioResult.isSuccess : N8nAudioResult → Bool
  | N8nAudioResult.success _ _ _ _ _ _ => true
  | N8nAudioResult.failure _ => false

/-- `n8n_execute` (n8n-create-blank-time.py lines 135–193): `duration` is
required (lines 155–157); the other keys default to
`'empty_audio.mp3'`, `44100`, `128`, `2`, `'mp3'` (lines 159–165). -/
def n8n_execute (env : AudioEnv) (params : AudioParams) : N8nAudioResult :=
  match params.duration with
  | none => N8nAudioResult.failure ("Duration parameter is required".toList)
  | some duration =>
    let output_file := params.output_file.getD ("empty_audio.mp3".toList)
    let sample_rate := params.sample_rate.getD 44100
    let bitrate := params.bitrate.getD 128
    let channels := params.channels.getD 2
    let output_format := params.output_format.getD ("mp3".toList)
    let run := create_empty_audio env duration output_file params.ffmpeg_path
      sample_rate bitrate channels output_format params.output_dir
    match run.result with
    | some p => N8nAudioResult.success p duration output_format sample_rate bitrate channels
    | none => N8nAudioResult.failure ("Failed to create audio file".toList)

/-! ## Concrete instances used by witnesses and counterexamples -/

/-- A one-slide demo deck: a text box whose paragraph contains the default
search text, and a table containing it too. -/
def demoPres : Pres :=
  { slides := [{ shapes := [Shape.textFrame [("Hello OLD TEXT world".toList)],
                            Shape.table [[("OLD TEXT".toList)]]],
                 notes := ("note OLD TEXT".toList) }] }

/-- A replacement environment in which exactly `/tmp/deck.pptx` exists and
loads as `demoPres`. -/
def demoReplaceEnv : ReplaceEnv :=
  { fileExists := fun p => p == ("/tmp/deck.pptx".toList),
    load := fun _ => Except.ok demoPres }

/-- A work item naming the existing demo deck. -/
def demoReplaceItem : ReplaceWorkItem := { file_path := ("/tmp/deck.pptx".toList) }

/-- A work item with no usable path. -/
def demoBadReplaceItem : ReplaceWorkItem := { file_path := [] }

/-- An audio environment in which `shutil.which` finds the encoder, the
process completes, and the destination file exists afterwards. -/
def goodAudioEnv : AudioEnv :=
  { whichFfmpeg := some ("/usr/bin/ffmpeg".toList),
    imageioOutcome := ImageioOutcome.importError,
    runOutcome := RunOutcome.ok, outputExistsAfterRun := true }

/-- An audio environment in which `shutil.which` finds nothing and the
`imageio_ffmpeg` package is absent (`ImportError`). -/
def noFfmpegEnv : AudioEnv :=
  { whichFfmpeg := none, imageioOutcome := ImageioOutcome.importError,
    runOutcome := RunOutcome.ok, outputExistsAfterRun := true }

/-- An audio environment in which `shutil.which` finds nothing and
`imageio_ffmpeg.get_ffmpeg_exe()` raises a `RuntimeError` (importable
package, no binary) — the exception the locator's `except ImportError`
does not catch. -/
def raisingImageioEnv : AudioEnv :=
  { whichFfmpeg := none,
    imageioOutcome := ImageioOutcome.raises ("No ffmpeg exe could be found".toList),
    runOutcome := RunOutcome.ok, outputExistsAfterRun := true }

/-- An audio-parameter dict with every key absent. -/
def emptyAudioParams : AudioParams := {}

/-- An audio-parameter dict carrying only `duration = 5`. -/
def durationOnlyParams : AudioParams := { duration := some 5 }

/-! ## Helper lemmas -/

/-- The empty string is a substring of every string, as in Python. -/
theorem strContains_nil (p : Str) : strContains p [] = true := by
  induction p with
  | nil => rfl
  | cons c t ih => simp [strContains, List.isPrefixOf]

/-- With no occurrence of `o` in `s`, the fuelled scan copies `s`. -/
theorem replaceFuel_not_contains (o r : Str) (fuel : Nat) (s : Str)
    (h : strContains s o = false) : replaceFuel o r fuel s = s := by
  induction s generalizing fuel with
  | nil => cases fuel <;> rfl
  | cons c t ih =>
    have h1 : o.isPrefixOf (c :: t) = false := by
      cases hp : o.isPrefixOf (c :: t) <;> simp_all [strContains]
    have h2 : strContains t o = false := by
      cases hp : strContains t o <;> simp_all [strContains]
    cases fuel with
    | zero => rfl
    | succ f => simp [replaceFuel, h1, ih f h2]

/-- A string containing no occurrence of `o` is left byte-identical by
`s.replace(o, r)`. -/
theorem pyReplace_not_contains (s o r : Str) (h : strContains s o = false) :
    pyReplace s o r = s := by
  have ho : o ≠ [] := by
    intro e
    rw [e, strContains_nil] at h
    exact absurd h (by simp)
  simp [pyReplace, ho, replaceFuel_not_contains o r s.length s h]

/-- `takeWhile` passes over a block of characters that all satisfy `p`. -/
theorem takeWhile_append_of_all (p : Char → Bool) (x y : Str)
    (h : ∀ a ∈ x, p a = true) : (x ++ y).takeWhile p = x ++ y.takeWhile p := by
  induction x with
  | nil => simp
  | cons c t ih =>
    have hc : p c = true := h c (List.mem_cons_self c t)
    simp [List.takeWhile_cons, hc]
    exact ih (fun a ha => h a (List.mem_cons_of_mem c ha))

/-- Every character of a POSIX basename differs from `'/'`. -/
theorem py_basename_no_slash (fp : Str) : ∀ a ∈ py_basename fp, (a != '/') = true := by
  intro a ha
  rw [py_basename, List.mem_reverse] at ha
  have h2 := List.mem_takeWhile_imp ha
  simpa using h2

/-- Joining a slash-free relative component `m` onto any directory yields a
path whose basename is `m` again. -/
theorem py_basename_pyJoin (d m : Str) (hm : ∀ a ∈ m, (a != '/') = true) :
    py_basename (pyJoin d m) = m := by
  have hms : startsWithChar '/' m = false := by
    cases m with
    | nil => rfl
    | cons c t =>
      have := hm c (List.mem_cons_self c t)
      simp [startsWithChar]
      intro e
      rw [e] at this
      simp at this
  have hmrev : ∀ a ∈ m.reverse, (a != '/') = true := by
    intro a ha
    exact hm a (List.mem_reverse.mp ha)
  have htake : m.reverse.takeWhile (fun c => c != '/') = m.reverse := by
    rw [List.takeWhile_eq_self_iff]
    exact hmrev
  rw [pyJoin, hms]
  simp only [Bool.false_eq_true, if_false]
  by_cases hd : d = [] ∨ startsWithChar '/' d.reverse = true
  · rw [if_pos hd]
    rcases hd with hd | hd
    · subst hd
      simp [py_basename, htake]
    · cases hrev : d.reverse with
      | nil => simp [startsWithChar, hrev] at hd
      | cons c t =>
        have hc : c = '/' := by
          rw [hrev] at hd
          simpa [startsWithChar] using hd
        subst hc
        rw [py_basename, List.reverse_append, hrev,
          takeWhile_append_of_all _ _ _ hmrev]
        simp [List.takeWhile_cons]
  · rw [if_neg hd]
    rw [py_basename]
    have : (d ++ '/' :: m).reverse = m.reverse ++ '/' :: d.reverse := by
      simp
    rw [this, takeWhile_append_of_all _ _ _ hmrev]
    simp [List.takeWhile_cons]

/-- Every character of the string literal `modified_` differs from `'/'`. -/
theorem modified_lit_no_slash : ∀ a ∈ ("modified_".toList), (a != '/') = true := by
  decide

/-- The replacement output path always differs from the source path: its
basename is `modified_` prepended to the source basename. -/
theorem ne_modified_path (fp : Str) : fp ≠ modified_path fp := by
  intro h
  have hall : ∀ a ∈ ("modified_".toList) ++ py_basename fp, (a != '/') = true := by
    intro a ha
    rcases List.mem_append.mp ha with ha | ha
    · exact modified_lit_no_slash a ha
    · exact py_basename_no_slash fp a ha
  have hb : py_basename fp = ("modified_".toList) ++ py_basename fp := by
    conv_lhs => rw [h]
    rw [modified_path]
    exact py_basename_pyJoin _ _ hall
  have := congrArg List.length hb
  rw [List.length_append] at this
  simp at this

/-- `List.lookup` misses every key absent from the association list. -/
theorem lookup_eq_none_of_not_mem {α β : Type} [BEq α] [LawfulBEq α]
    (key : α) (l : List (α × β)) (h : key ∉ l.map Prod.fst) :
    List.lookup key l = none := by
  induction l with
  | nil => rfl
  | cons kv t ih =>
    simp only [List.map_cons, List.mem_cons] at h
    push_neg at h
    have h1 : (key == kv.1) = false := beq_eq_false_iff_ne.mpr h.1
    cases kv with
    | mk k b =>
      simp only [List.lookup]
      rw [h1]
      exact ih h.2

/-! ## Claim theorems -/

/-- C2. In the text-replacement traversal, for every paragraph of every
text-frame shape on every slide: a paragraph containing `searchText` gets
Python's literal, case-sensitive, left-to-right non-overlapping replace-all
(`pyReplace`) applied; a paragraph with no occurrence is byte-identical
(both via the guard and, as the last conjunct shows, because replace-all
itself fixes occurrence-free strings); table shapes and slide notes are
never modified. -/
theorem replace_text_paragraphwise :
    (∀ (s r : Str) (prs : Pres) (i j k : Nat) (sl : Slide) (ps : List Str) (p : Str),
      prs.slides[i]? = some sl →
      sl.shapes[j]? = some (Shape.textFrame ps) →
      ps[k]? = some p →
      ∃ sl2 : Slide,
        (replace_in_presentation s r prs).slides[i]? = some sl2 ∧
        sl2.notes = sl.notes ∧
        sl2.shapes[j]? = some (Shape.textFrame (ps.map (replace_paragraph s r))) ∧
        (ps.map (replace_paragraph s r))[k]? =
          some (if strContains p s then pyReplace p s r else p) ∧
        (strContains p s = false → (ps.map (replace_paragraph s r))[k]? = some p))
    ∧ (∀ (s r : Str) (prs : Pres) (i j : Nat) (sl : Slide) (t : List (List Str)),
      prs.slides[i]? = some sl →
      sl.shapes[j]? = some (Shape.table t) →
      ((replace_in_presentation s r prs).slides[i]?).bind (fun sl2 => sl2.shapes[j]?)
        = some (Shape.table t))
    ∧ (∀ (s r : Str) (prs : Pres) (i : Nat) (sl : Slide),
      prs.slides[i]? = some sl →
      ((replace_in_presentation s r prs).slides[i]?).map Slide.notes = some sl.notes)
    ∧ (∀ (p s r : Str), strContains p s = false → pyReplace p s r = p) := by
  refine ⟨?_, ?_, ?_, fun p s r h => pyReplace_not_contains p s r h⟩
  · intro s r prs i j k sl ps p h1 h2 h3
    refine ⟨{ shapes := sl.shapes.map (replace_shape s r), notes := sl.notes }, ?_, rfl, ?_, ?_, ?_⟩
    · simp [replace_in_presentation, List.getElem?_map, h1]
    · simp [List.getElem?_map, h2, replace_shape]
    · simp [List.getElem?_map, h3, replace_paragraph]
    · intro h
      simp [List.getElem?_map, h3, replace_paragraph, h]
  · intro s r prs i j sl t h1 h2
    simp [replace_in_presentation, List.getElem?_map, h1, h2, replace_shape]
  · intro s r prs i sl h1
    simp [replace_in_presentation, List.getElem?_map, h1]

/-- C2 witness: on the demo deck, the paragraph `Hello OLD TEXT world`
becomes `Hello NEW TEXT world`. -/
theorem replace_text_paragraphwise_witness :
    ((replace_in_presentation ("OLD TEXT".toList) ("NEW TEXT".toList) demoPres).slides[0]?).bind
      (fun sl2 => sl2.shapes[0]?) =
      some (Shape.textFrame [("Hello NEW TEXT world".toList)]) := by
  obtain ⟨sl2, h1, h2, h3, h4, h5⟩ :=
    replace_text_paragraphwise.1 ("OLD TEXT".toList) ("NEW TEXT".toList) demoPres 0 0 0
      { shapes := [Shape.textFrame [("Hello OLD TEXT world".toList)],
                   Shape.table [[("OLD TEXT".toList)]]],
        notes := ("note OLD TEXT".toList) }
      [("Hello OLD TEXT world".toList)] ("Hello OLD TEXT world".toList) rfl rfl rfl
  rw [h1]
  simp only [Option.bind]
  rw [h3]
  decide

/-- C4. An extraction work item whose `file_path` is empty or names no
existing file is answered, without any deck-load attempt or file write,
by exactly `{success: false, error: "Invalid file path: <file_path>"}`. -/
theorem extract_invalid_path_result (fs : List Str) (item : ExtractWorkItem)
    (h : item.file_path = [] ∨ ¬ (item.file_path ∈ fs)) :
    extract_step fs item =
      (some { success := false,
              error := ("Invalid file path: ".toList) ++ item.file_path,
              file_path := item.file_path }, [], []) := by
  unfold extract_step
  rw [if_pos h]

/-- C4 witness: the spec's scenario `/missing/deck.pptx`. -/
theorem extract_invalid_path_result_witness :
    extract_step [] { file_path := ("/missing/deck.pptx".toList) } =
      (some { success := false,
              error := ("Invalid file path: /missing/deck.pptx".toList),
              file_path := ("/missing/deck.pptx".toList) }, [], []) := by
  rw [extract_invalid_path_result [] _ (Or.inr (by simp))]
  decide

/-- C3. One replacement item writes at most to
`modified_<basename>` joined onto the source directory, and never to the
source path itself (the output basename is strictly longer). -/
theorem replace_writes_only_modified (env : ReplaceEnv) (it : ReplaceWorkItem) :
    (∀ w ∈ (process_replace_item env it).2, w.1 = modified_path it.file_path) ∧
    it.file_path ∉ (process_replace_item env it).2.map Prod.fst := by
  unfold process_replace_item
  by_cases h : it.file_path ≠ [] ∧ env.fileExists it.file_path = true
  · rw [if_pos h]
    cases hl : env.load it.file_path with
    | ok prs =>
      constructor
      · intro w hw
        simp only [List.mem_singleton] at hw
        rw [hw]
      · simp [ne_modified_path it.file_path]
    | error e => simp
  · rw [if_neg h]
    simp

/-- C3 witness: the demo item's source path is not among the write targets. -/
theorem replace_writes_only_modified_witness :
    ("/tmp/deck.pptx".toList) ∉
      (process_replace_item demoReplaceEnv demoReplaceItem).2.map Prod.fst :=
  (replace_writes_only_modified demoReplaceEnv demoReplaceItem).2

/-- C1 (evaluating the code at the failing input). The extraction batch
drops items with a valid path: a one-item batch whose file exists yields
zero results, not one — the success/error appends of
n8n-output-slides-text.py lines 96–109 are unreachable. The replacement
batch, by contrast, does return one result per item. -/
theorem extraction_batch_loses_valid_items :
    ((extract_run [("/tmp/deck.pptx".toList)]
        [{ file_path := ("/tmp/deck.pptx".toList) }]).1.length = 0
      ∧ ([({ file_path := ("/tmp/deck.pptx".toList) } : ExtractWorkItem)]).length = 1)
    ∧ (replace_batch demoReplaceEnv [demoReplaceItem, demoBadReplaceItem]).1.length = 2 := by
  exact ⟨⟨rfl, rfl⟩, rfl⟩

/-- C9 (evaluating the code at the failing input). A run of the extraction
batch over an existing deck performs no file write at all (and no deck
load): the `json.dump` at n8n-output-slides-text.py line 93 is unreachable,
so no `<base>_content.json` artifact is ever produced. -/
theorem extraction_writes_no_artifact :
    (extract_run [("/tmp/deck.pptx".toList)]
        [{ file_path := ("/tmp/deck.pptx".toList) }]).2.2 = []
    ∧ (extract_run [("/tmp/deck.pptx".toList)]
        [{ file_path := ("/tmp/deck.pptx".toList) }]).2.1 = [] := by
  exact ⟨rfl, rfl⟩

/-- C5 counterexample: the format string `WAV` is not a key of the lookup
table, yet the chosen codec is `pcm_s16le`, not the claimed `libmp3lame`
fallback — the code lowercases the format before the lookup. -/
theorem get_codec_uppercase_counterexample :
    ("WAV".toList) ∉ format_codec_map.map Prod.fst
    ∧ get_codec_for_format ("WAV".toList) = ("pcm_s16le".toList)
    ∧ ("pcm_s16le".toList) ≠ ("libmp3lame".toList) := by
  decide

/-- C5 (amended). The codec is a pure function of the ASCII-lowercased
format string: the six table entries hold, and every format whose
lowercasing is not a table key falls back to `libmp3lame`. -/
theorem get_codec_table_and_default :
    (get_codec_for_format ("mp3".toList) = ("libmp3lame".toList)
    ∧ get_codec_for_format ("wav".toList) = ("pcm_s16le".toList)
    ∧ get_codec_for_format ("ogg".toList) = ("libvorbis".toList)
    ∧ get_codec_for_format ("aac".toList) = ("aac".toList)
    ∧ get_codec_for_format ("flac".toList) = ("flac".toList)
    ∧ get_codec_for_format ("m4a".toList) = ("aac".toList))
    ∧ (∀ f : Str, pyLower f ∉ format_codec_map.map Prod.fst →
        get_codec_for_format f = ("libmp3lame".toList)) := by
  constructor
  · exact ⟨by decide, by decide, by decide, by decide, by decide, by decide⟩
  · intro f hf
    rw [get_codec_for_format, lookup_eq_none_of_not_mem _ _ hf]
    rfl

/-- C5 witness: an unrecognized format falls back to the default codec. -/
theorem get_codec_default_witness :
    get_codec_for_format ("xyz".toList) = ("libmp3lame".toList) :=
  get_codec_table_and_default.2 ("xyz".toList) (by decide)

/-- After an encoder path is in hand, success is exactly a clean run with
an existing destination, and any returned path is the computed one. -/
theorem after_resolve_success_iff (env : AudioEnv) (duration : Int)
    (output_file : Str) (sample_rate bitrate channels : Int)
    (output_format : Str) (output_dir : Option Str) :
    ((create_empty_audio_after_resolve env duration output_file sample_rate bitrate
        channels output_format output_dir).result.isSome = true ↔
      (env.runOutcome = RunOutcome.ok ∧ env.outputExistsAfterRun = true)) ∧
    ((create_empty_audio_after_resolve env duration output_file sample_rate bitrate
        channels output_format output_dir).result = none ∨
      (create_empty_audio_after_resolve env duration output_file sample_rate bitrate
        channels output_format output_dir).result =
        some (audio_output_path output_file output_format output_dir)) := by
  unfold create_empty_audio_after_resolve
  cases ho : env.runOutcome with
  | ok => cases he : env.outputExistsAfterRun <;> simp [ho, he]
  | runtimeError m => simp [ho]
  | otherError m => simp [ho]

/-- C6. `create_empty_audio` reports success — returning the destination
path — exactly when an encoder was resolved, the process completed without
exception, and the destination file exists afterwards; in every other case
(not found, runtime error, other exception, or clean exit with no file) it
returns the failure value `none` rather than raising. -/
theorem create_empty_audio_success_iff (env : AudioEnv) (duration : Int)
    (output_file : Str) (ffmpeg_path : Option Str)
    (sample_rate bitrate channels : Int) (output_format : Str)
    (output_dir : Option Str) :
    ((create_empty_audio env duration output_file ffmpeg_path sample_rate bitrate
        channels output_format output_dir).result.isSome = true ↔
      ((resolve_ffmpeg env ffmpeg_path).isSome = true
        ∧ env.runOutcome = RunOutcome.ok ∧ env.outputExistsAfterRun = true)) ∧
    ((create_empty_audio env duration output_file ffmpeg_path sample_rate bitrate
        channels output_format output_dir).result = none ∨
      (create_empty_audio env duration output_file ffmpeg_path sample_rate bitrate
        channels output_format output_dir).result =
        some (audio_output_path output_file output_format output_dir)) := by
  have h := after_resolve_success_iff env duration output_file sample_rate bitrate
    channels output_format output_dir
  cases hf : ffmpeg_path with
  | some q =>
    constructor
    · simpa [create_empty_audio, resolve_ffmpeg] using h.1
    · simpa [create_empty_audio] using h.2
  | none =>
    cases hg : get_ffmpeg_path env with
    | ok o =>
      cases o with
      | some p =>
        constructor
        · simpa [create_empty_audio, resolve_ffmpeg, hg] using h.1
        · simpa [create_empty_audio, hg] using h.2
      | none => simp [create_empty_audio, resolve_ffmpeg, hg]
    | error m => simp [create_empty_audio, resolve_ffmpeg, hg]

/-- C6 witness: with encoder found, clean run and existing output, the
call succeeds. -/
theorem create_empty_audio_success_iff_witness :
    (create_empty_audio goodAudioEnv 5 ("empty_audio.mp3".toList) none 44100 128 2
      ("mp3".toList) none).result.isSome = true :=
  (create_empty_audio_success_iff goodAudioEnv 5 ("empty_audio.mp3".toList) none
    44100 128 2 ("mp3".toList) none).1.mpr ⟨by decide, rfl, rfl⟩

/-- C7 counterexample: with `shutil.which` empty-handed and
`imageio_ffmpeg.get_ffmpeg_exe()` raising `RuntimeError`, the locator does
not return the not-found signal `None` — the exception propagates out of
it, because the `except` clause at n8n-create-blank-time.py line 34
catches only `ImportError`. -/
theorem get_ffmpeg_path_raises_counterexample :
    get_ffmpeg_path raisingImageioEnv =
      Except.error ("No ffmpeg exe could be found".toList)
    ∧ get_ffmpeg_path raisingImageioEnv ≠ Except.ok none := by
  refine ⟨rfl, ?_⟩
  intro h
  simp [get_ffmpeg_path, raisingImageioEnv] at h

/-- C7 (amended). The locator returns the `shutil.which` hit when there is
one; otherwise it attempts the `imageio_ffmpeg` binary, returning the
not-found signal `None` only when that import fails with `ImportError`,
returning the package's path when it resolves, and propagating any other
exception the resolver raises (only `ImportError` is caught); whenever the
locator yields no encoder path — by `None` or by raising — synthesis
returns failure before any encoder process is invoked (an escaping locator
exception is caught by `create_empty_audio`'s generic handler). -/
theorem get_ffmpeg_path_spec (env : AudioEnv) :
    (∀ p : Str, env.whichFfmpeg = some p → get_ffmpeg_path env = Except.ok (some p)) ∧
    (env.whichFfmpeg = none → env.imageioOutcome = ImageioOutcome.importError →
      get_ffmpeg_path env = Except.ok none) ∧
    (∀ p : Str, env.whichFfmpeg = none → env.imageioOutcome = ImageioOutcome.resolved p →
      get_ffmpeg_path env = Except.ok (some p)) ∧
    (∀ m : Str, env.whichFfmpeg = none → env.imageioOutcome = ImageioOutcome.raises m →
      get_ffmpeg_path env = Except.error m) ∧
    (∀ (duration : Int) (output_file : Str) (sample_rate bitrate channels : Int)
        (output_format : Str) (output_dir : Option Str),
      (∀ p : Str, get_ffmpeg_path env ≠ Except.ok (some p)) →
      (create_empty_audio env duration output_file none sample_rate bitrate channels
          output_format output_dir).result = none ∧
      (create_empty_audio env duration output_file none sample_rate bitrate channels
          output_format output_dir).processInvoked = false) := by
  refine ⟨?_, ?_, ?_, ?_, ?_⟩
  · intro p h
    simp [get_ffmpeg_path, h]
  · intro h1 h2
    simp [get_ffmpeg_path, h1, h2]
  · intro p h1 h2
    simp [get_ffmpeg_path, h1, h2]
  · intro m h1 h2
    simp [get_ffmpeg_path, h1, h2]
  · intro duration output_file sample_rate bitrate channels output_format output_dir h
    cases hg : get_ffmpeg_path env with
    | ok o =>
      cases o with
      | some p => exact absurd hg (h p)
      | none => constructor <;> simp [create_empty_audio, hg]
    | error m => constructor <;> simp [create_empty_audio, hg]

/-- C7 witness: the raising locator at a concrete input, and the not-found
locator still failing before any process is launched. -/
theorem get_ffmpeg_path_spec_witness :
    get_ffmpeg_path raisingImageioEnv =
      Except.error ("No ffmpeg exe could be found".toList)
    ∧ (create_empty_audio noFfmpegEnv 5 ("empty_audio.mp3".toList) none 44100 128 2
        ("mp3".toList) none).processInvoked = false :=
  ⟨(get_ffmpeg_path_spec raisingImageioEnv).2.2.2.1
      ("No ffmpeg exe could be found".toList) rfl rfl,
   ((get_ffmpeg_path_spec noFfmpegEnv).2.2.2.2 5 ("empty_audio.mp3".toList) 44100 128 2
      ("mp3".toList) none
      (fun p h => by simp [get_ffmpeg_path, noFfmpegEnv] at h)).2⟩

/-- C8 counterexample: a work item with no `duration` key is rejected with
`Duration parameter is required` even in an environment where synthesis
would succeed — it is not defaulted to 10 — while a `duration`-only item
succeeds with defaults sample rate 44100, bitrate 128 (not "192k"),
channels 2, format mp3. -/
theorem n8n_execute_missing_duration_counterexample :
    n8n_execute goodAudioEnv emptyAudioParams =
      N8nAudioResult.failure ("Duration parameter is required".toList)
    ∧ (n8n_execute goodAudioEnv emptyAudioParams).isSuccess = false
    ∧ n8n_execute goodAudioEnv durationOnlyParams =
      N8nAudioResult.success ("empty_audio.mp3".toList) 5 ("mp3".toList) 44100 128 2 := by
  refine ⟨rfl, rfl, ?_⟩
  decide

/-- C8 (amended). `n8n_execute` requires `duration`: an item without it
yields the error result `Duration parameter is required`; an item carrying
only a duration is processed with the defaults output file
`empty_audio.mp3`, sample rate 44100, bitrate 128, channels 2, format mp3,
and succeeds whenever the environment lets synthesis succeed. -/
theorem n8n_execute_duration_required (env : AudioEnv) (params : AudioParams) (d : Int) :
    (params.duration = none →
      n8n_execute env params =
        N8nAudioResult.failure ("Duration parameter is required".toList)) ∧
    ((resolve_ffmpeg env none).isSome = true → env.runOutcome = RunOutcome.ok →
      env.outputExistsAfterRun = true →
      n8n_execute env { duration := some d } =
        N8nAudioResult.success ("empty_audio.mp3".toList) d ("mp3".toList) 44100 128 2) := by
  constructor
  · intro h
    simp [n8n_execute, h]
  · intro h1 h2 h3
    cases hr : resolve_ffmpeg env none with
    | none => rw [hr] at h1; simp at h1
    | some p =>
      have hg : get_ffmpeg_path env = Except.ok (some p) := by
        cases hge : get_ffmpeg_path env with
        | error m => simp [resolve_ffmpeg, hge] at hr
        | ok o =>
          cases o with
          | none => simp [resolve_ffmpeg, hge] at hr
          | some q =>
            simp [resolve_ffmpeg, hge] at hr
            rw [hr]
      simp [n8n_execute, create_empty_audio, create_empty_audio_after_resolve,
        hg, h2, h3]
      try decide

/-- C8 witness: both halves at concrete inputs. -/
theorem n8n_execute_duration_required_witness :
    n8n_execute goodAudioEnv emptyAudioParams =
      N8nAudioResult.failure ("Duration parameter is required".toList)
    ∧ n8n_execute goodAudioEnv { duration := some 7 } =
      N8nAudioResult.success ("empty_audio.mp3".toList) 7 ("mp3".toList) 44100 128 2 :=
  ⟨(n8n_execute_duration_required goodAudioEnv emptyAudioParams 7).1 rfl,
   (n8n_execute_duration_required goodAudioEnv emptyAudioParams 7).2 (by decide) rfl rfl⟩

/-- C10. The channel-layout token is `mono` exactly for channel count 1 and
`stereo` for every other integer count, including 0, 3 and negatives. -/
theorem channel_layout_spec (c : Int) :
    (channel_layout c = ("mono".toList) ↔ c = 1) ∧
    (channel_layout c = ("stereo".toList) ↔ c ≠ 1) := by
  have hms : ("mono".toList) ≠ ("stereo".toList) := by decide
  by_cases h : c = 1 <;> simp [channel_layout, h, hms, Ne.symm hms]

/-- C10 witness: channel count 0, outside the documented domain, still maps
to `stereo`. -/
theorem channel_layout_spec_witness :
    channel_layout 0 = ("stereo".toList) :=
  (channel_layout_spec 0).2.mpr (by decide)
